import Mathlib

/-!
Shallow embedding of `src/action_handler.rs` of the `foobot` repository:
the action dispatcher (`ActionHandler::run`) and its per-action handlers.

Modelling choices:
- Each handler is a pure function from an oracle `Env` (the persistence
  port and the external API ports, which are external collaborators) to a
  pair of an `Outcome` and a trace of `Effect`s (port calls, outbound
  channel sends, sleeps), in the order the Rust code performs them.
- Rust panics (`unwrap`, `expect`) are modelled by the `Outcome.panic`
  constructor; sends on the outbound channel are modelled as always
  accepted (the collaborator contract: a failed send kills the process).
- Rust `format!` calls are modelled by string concatenation; integer
  display uses `toString`.
- `f64` weather temperature is kept as an opaque pre-rendered string,
  since no dispatch behaviour depends on the numeric value.
-/

namespace Foobot

/-- Outbound chat operation (`SendMsg` in `bot.rs`): an ordinary chat line
or a privileged platform directive, each tagged with its channel. -/
inductive SendMsg where
  | Say : String → String → SendMsg
  | Raw : String → String → SendMsg
deriving DecidableEq

/-- Persistence-port error (`DBConnError` in `db.rs`, external to
`action_handler.rs`): `action_handler.rs` distinguishes only `NotFound`
from every other variant, so the rest are collapsed into `Other`. -/
inductive DBConnError where
  | NotFound
  | Other : String → DBConnError
deriving DecidableEq

/-- Dispatcher error type (`CommandHandlerError` in `command_handler.rs`,
external): `ExecutionError` and `DBError` are the variants constructed in
`action_handler.rs`; external API faults converted by the `?` operator are
collapsed into `APIError` carrying their debug rendering. -/
inductive CommandHandlerError where
  | ExecutionError : String → CommandHandlerError
  | DBError : DBConnError → CommandHandlerError
  | APIError : String → CommandHandlerError
deriving DecidableEq

/-- The result of running Rust code that may return `Ok`, return an error,
or panic (`unwrap` / `expect` on a missing or failed value). -/
inductive Outcome (α : Type) where
  | ok : α → Outcome α
  | err : CommandHandlerError → Outcome α
  | panic : String → Outcome α
deriving DecidableEq

/-- One observable step of a handler: a persistence-port call, an external
API call, an outbound-channel send, or a timer suspension. -/
inductive Effect where
  | send : SendMsg → Effect
  | sleep : Nat → Effect
  | dbAddHitman : String → String → Effect
  | dbGetProtected : String → String → Effect
  | dbSetProtection : String → String → Bool → Effect
  | dbGetToken : String → Effect
  | dbIncrement : String → Effect
  | dbGetCurrency : String → Effect
  | apiCurrentSong : String → Effect
  | apiCurrentPlaylist : String → Effect
  | apiRecentlyPlayed : String → Effect
  | apiRunAd : String → Nat → Effect
  | apiWeather : String → Effect
  | apiTranslate : String → Effect
deriving DecidableEq

/-- The messages actually enqueued on the outbound channel, in order, of an
effect trace. -/
def sentMsgs (effs : List Effect) : List SendMsg :=
  effs.filterMap fun e =>
    match e with
    | .send m => some m
    | _ => none

/-- The `Raw` (privileged directive) messages of an effect trace, in order. -/
def rawMsgs (effs : List Effect) : List SendMsg :=
  (sentMsgs effs).filter fun m =>
    match m with
    | .Raw _ _ => true
    | _ => false

/-- Weather API response (`weather.rs` response shape as consumed by
`get_weather`): `name`, optional `sys.country`, rendered `main.temp`, and
the list of `weather[..].description`. -/
structure Weather where
  name : String
  country : Option String
  temp : String
  descriptions : List String
deriving DecidableEq

/-- Weather-port error: `action_handler.rs` distinguishes only
`InvalidLocation`; other variants are collapsed into `Other` carrying the
debug rendering. -/
inductive WeatherError where
  | InvalidLocation
  | Other : String → WeatherError
deriving DecidableEq

/-- Translation API response as consumed by `translate`: source language,
destination language, translated text. -/
structure Translation where
  src : String
  dest : String
  text : String
deriving DecidableEq

/-- Oracle for the external collaborators: each field gives the response
the persistence port or an external API port returns to the one call the
handler makes (for `hitmanProtected`, the value read at the post-delay
check). -/
structure Env where
  spotifyToken : String → Except DBConnError (String × String)
  addHitman : String → String → Except DBConnError Unit
  hitmanProtected : String → String → Except DBConnError Bool
  setHitmanProtection : String → String → Bool → Except DBConnError Unit
  incrementCurrency : String → Except DBConnError Unit
  getCurrency : String → Except DBConnError Int
  currentSong : String → Except String (Option String)
  currentPlaylist : String → Except String (Option String)
  recentlyPlayed : String → Except String String
  runAd : String → Nat → Except String Unit
  getWeather : String → Except WeatherError Weather
  translateText : String → Except String Translation

/-- Rust `str::parse` for an unsigned integer type with maximum `bound`:
an optional `+` sign, then one or more decimal digits, no overflow. A `-`
sign is rejected for unsigned types (it is not a digit, so `from_str`
fails with an invalid-digit error, also on `-0`). -/
def parseUnsigned (bound : Nat) (s : String) : Option Nat :=
  match s.data with
  | [] => none
  | c :: rest =>
    let digits := if c = '+' then rest else c :: rest
    if digits.isEmpty then none
    else if digits.all (fun d => d.isDigit) then
      let v := digits.foldl (fun a d => a * 10 + (d.toNat - 48)) 0
      if v ≤ bound then some v else none
    else none

/-- Rust `str::parse::<u8>` as used for the `commercial` duration. -/
def parseU8 (s : String) : Option Nat :=
  parseUnsigned 255 s

/-- Rust `str::parse::<u64>` as used for the `emoteonly` duration. -/
def parseU64 (s : String) : Option Nat :=
  parseUnsigned (2 ^ 64 - 1) s

/-- Rust `name.replace('@', "")`: remove every `@` character. -/
def stripAt (s : String) : String :=
  String.mk (s.data.filter fun c => c != '@')

/-- Modelled from the spec: `sys::SysInfo::ping()` (module `sys.rs` is not
in the sources) returns a fixed liveness text. -/
def pingText : String :=
  "Pong! I am alive."

/-- `ActionHandler::get_spotify`: token lookup, then now-playing lookup;
a `NotFound` token is a soft reply, other token faults are `DBError`. -/
def get_spotify (env : Env) (channel : String) : Outcome String × List Effect :=
  match env.spotifyToken channel with
  | .ok (access_token, _) =>
    match env.currentSong access_token with
    | .ok (some song) => (.ok song, [.dbGetToken channel, .apiCurrentSong access_token])
    | .ok none =>
        (.ok "no song is currently playing", [.dbGetToken channel, .apiCurrentSong access_token])
    | .error e => (.err (.APIError e), [.dbGetToken channel, .apiCurrentSong access_token])
  | .error e =>
    match e with
    | .NotFound => (.ok "not configured for this channel", [.dbGetToken channel])
    | .Other m => (.err (.DBError (.Other m)), [.dbGetToken channel])

/-- `ActionHandler::get_spotify_playlist`: token lookup, then current
playlist lookup; same token-fault classification as `get_spotify`. -/
def get_spotify_playlist (env : Env) (channel : String) : Outcome String × List Effect :=
  match env.spotifyToken channel with
  | .ok (access_token, _) =>
    match env.currentPlaylist access_token with
    | .ok (some playlist) =>
        (.ok playlist, [.dbGetToken channel, .apiCurrentPlaylist access_token])
    | .ok none =>
        (.ok "not currently playing a playlist",
         [.dbGetToken channel, .apiCurrentPlaylist access_token])
    | .error e => (.err (.APIError e), [.dbGetToken channel, .apiCurrentPlaylist access_token])
  | .error e =>
    match e with
    | .NotFound => (.ok "not configured for this channel", [.dbGetToken channel])
    | .Other m => (.err (.DBError (.Other m)), [.dbGetToken channel])

/-- `ActionHandler::get_spotify_last_song`: token lookup, then
recently-played lookup; an API error degrades to a text reply. -/
def get_spotify_last_song (env : Env) (channel : String) : Outcome String × List Effect :=
  match env.spotifyToken channel with
  | .ok (access_token, _) =>
    match env.recentlyPlayed access_token with
    | .ok recently_played =>
        (.ok recently_played, [.dbGetToken channel, .apiRecentlyPlayed access_token])
    | .error e =>
        (.ok ("error getting last song: " ++ e),
         [.dbGetToken channel, .apiRecentlyPlayed access_token])
  | .error e =>
    match e with
    | .NotFound => (.ok "not configured for this channel", [.dbGetToken channel])
    | .Other m => (.err (.DBError (.Other m)), [.dbGetToken channel])

/-- `ActionHandler::hitman`: persist the record, announce, sleep 15s, then
read the protection flag; `false` times the target out, `true` clears the
flag and replies with the empty string. -/
def hitman (env : Env) (channel user : String) : Outcome String × List Effect :=
  match env.addHitman channel user with
  | .error e => (.err (.DBError e), [.dbAddHitman channel user])
  | .ok _ =>
    let prefixEffs : List Effect :=
      [.dbAddHitman channel user,
       .send (.Say channel ("Timing out " ++ user ++ " in 15 seconds...")),
       .sleep 15]
    match env.hitmanProtected user channel with
    | .error e => (.err (.DBError e), prefixEffs ++ [.dbGetProtected user channel])
    | .ok false =>
        (.ok (user ++ " timed out for 10 minutes!"),
         prefixEffs ++
           [.dbGetProtected user channel,
            .send (.Raw channel ("/timeout " ++ user ++ " 600"))])
    | .ok true =>
      match env.setHitmanProtection user channel false with
      | .error e =>
          (.err (.DBError e),
           prefixEffs ++ [.dbGetProtected user channel, .dbSetProtection user channel false])
      | .ok _ =>
          (.ok "",
           prefixEffs ++ [.dbGetProtected user channel, .dbSetProtection user channel false])

/-- `ActionHandler::bodyguard`: set the protection flag, announce, reply
with the empty string. -/
def bodyguard (env : Env) (channel user : String) : Outcome String × List Effect :=
  match env.setHitmanProtection user channel true with
  | .error e => (.err (.DBError e), [.dbSetProtection user channel true])
  | .ok _ =>
      (.ok "",
       [.dbSetProtection user channel true,
        .send (.Say channel (user ++ " has been guarded!"))])

/-- `ActionHandler::emote_only`: announce, enable emote-only, sleep for the
caller-supplied duration, disable it. No return value. -/
def emote_only (channel : String) (duration : Nat) : List Effect :=
  [.send (.Say channel ("Emote-only enabled for " ++ toString duration ++ " seconds!")),
   .send (.Raw channel "/emoteonly"),
   .sleep duration,
   .send (.Raw channel "/emoteonlyoff")]

/-- `ActionHandler::run_ad`: trigger an ad only for durations 60, 120 or
180; otherwise reply `Invalid ad duration` without touching the port. -/
def run_ad (env : Env) (channel : String) (duration : Nat) : Outcome String × List Effect :=
  if duration = 60 ∨ duration = 120 ∨ duration = 180 then
    match env.runAd channel duration with
    | .ok _ =>
        (.ok ("Running an ad for " ++ toString duration ++ " seconds"),
         [.apiRunAd channel duration])
    | .error e => (.err (.APIError e), [.apiRunAd channel duration])
  else (.ok "Invalid ad duration", [])

/-- `ActionHandler::get_weather`: one weather lookup; `InvalidLocation`
and other faults both degrade to text replies; an empty description list
panics on `first().unwrap()`. -/
def get_weather (env : Env) (location : String) : Outcome String × List Effect :=
  match env.getWeather location with
  | .ok w =>
    match w.descriptions with
    | d :: _ =>
        (.ok (w.name ++ ", " ++ w.country.getD "" ++ ": " ++ w.temp ++ "°C, " ++ d),
         [.apiWeather location])
    | [] => (.panic "called Option::unwrap() on a None value", [.apiWeather location])
  | .error .InvalidLocation => (.ok "location not found", [.apiWeather location])
  | .error (.Other dbg) =>
      (.ok ("Failed getting weather: " ++ dbg), [.apiWeather location])

/-- `ActionHandler::translate`: one translation call; faults degrade to a
text reply. -/
def translate (env : Env) (text : String) : Outcome String × List Effect :=
  match env.translateText text with
  | .ok t => (.ok (t.src ++ " -> " ++ t.dest ++ ": " ++ t.text), [.apiTranslate text])
  | .error e => (.ok ("error when translating: " ++ e), [.apiTranslate text])

/-- Wrap a handler reply `Ok(s)` as the dispatcher result `Ok(Some(s))`,
keeping errors, panics and the effect trace. -/
def liftSome : Outcome String × List Effect → Outcome (Option String) × List Effect
  | (.ok s, effs) => (.ok (some s), effs)
  | (.err e, effs) => (.err e, effs)
  | (.panic m, effs) => (.panic m, effs)

/-- The fixed table of built-in action names matched by
`ActionHandler::run`. -/
def knownActions : List String :=
  ["spotify", "spotify.playlist", "lastsong", "hitman", "bodyguard", "ping",
   "commercial", "weather", "translate", "emoteonly", "increment", "currency"]

/-- `ActionHandler::run`: exact-match dispatch on the action name, in the
source order of the `match` arms. -/
def run (env : Env) (action : String) (args : List String) (channel : String) :
    Outcome (Option String) × List Effect :=
  if action = "spotify" then liftSome (get_spotify env channel)
  else if action = "spotify.playlist" then liftSome (get_spotify_playlist env channel)
  else if action = "lastsong" then liftSome (get_spotify_last_song env channel)
  else if action = "hitman" then
    match args with
    | name :: _ => liftSome (hitman env channel (stripAt name))
    | [] => (.ok (some "user not specified"), [])
  else if action = "bodyguard" then
    match args with
    | name :: _ => liftSome (bodyguard env channel (stripAt name))
    | [] => (.ok (some "user not specified"), [])
  else if action = "ping" then (.ok (some pingText), [])
  else if action = "commercial" then
    match args with
    | [] => (.panic "called Option::unwrap() on a None value", [])
    | s :: _ =>
      match parseU8 s with
      | some d => liftSome (run_ad env channel d)
      | none => (.panic "called Result::unwrap() on an Err value", [])
  else if action = "weather" then
    if args.isEmpty then (.ok (some "location not specified"), [])
    else liftSome (get_weather env (String.intercalate " " args))
  else if action = "translate" then
    match args with
    | s :: _ => liftSome (translate env s)
    | [] => (.panic "called Option::unwrap() on a None value", [])
  else if action = "emoteonly" then
    match args with
    | [] => (.panic "called Option::unwrap() on a None value", [])
    | s :: _ =>
      match parseU64 s with
      | some d => (.ok none, emote_only channel d)
      | none => (.err (.ExecutionError "invalid duration"), [])
  else if action = "increment" then
    match args with
    | u :: _ =>
      match env.incrementCurrency u with
      | .ok _ => (.ok none, [.dbIncrement u])
      | .error e => (.err (.DBError e), [.dbIncrement u])
    | [] => (.err (.ExecutionError "Missing username"), [])
  else if action = "currency" then
    match args with
    | u :: _ =>
      match env.getCurrency u with
      | .ok v => (.ok (some (toString v)), [.dbGetCurrency u])
      | .error e => (.err (.DBError e), [.dbGetCurrency u])
    | [] => (.err (.ExecutionError "Missing username"), [])
  else (.err (.ExecutionError ("unknown action " ++ action)), [])

/-- A concrete healthy environment used for witnesses: every port call
succeeds; the protection flag reads `true` exactly for user `guarded`. -/
def envDefault : Env where
  spotifyToken := fun _ => .ok ("tok", "refresh")
  addHitman := fun _ _ => .ok ()
  hitmanProtected := fun u _ => if u = "guarded" then .ok true else .ok false
  setHitmanProtection := fun _ _ _ => .ok ()
  incrementCurrency := fun _ => .ok ()
  getCurrency := fun _ => .ok 42
  currentSong := fun _ => .ok (some "Song Title")
  currentPlaylist := fun _ => .ok (some "Playlist Name")
  recentlyPlayed := fun _ => .ok "Last Song"
  runAd := fun _ _ => .ok ()
  getWeather := fun _ => .ok ⟨"London", some "GB", "15", ["clear sky"]⟩
  translateText := fun _ => .ok ⟨"en", "de", "hallo"⟩

/-- A concrete environment whose persistence port is down: every DB call
fails with a non-`NotFound` storage fault. -/
def envDbDown : Env :=
  { envDefault with
    spotifyToken := fun _ => .error (.Other "db down")
    addHitman := fun _ _ => .error (.Other "db down")
    hitmanProtected := fun _ _ => .error (.Other "db down")
    setHitmanProtection := fun _ _ _ => .error (.Other "db down")
    incrementCurrency := fun _ => .error (.Other "db down")
    getCurrency := fun _ => .error (.Other "db down") }

/-- A concrete environment with no record for any channel: every token
lookup reports `NotFound`. -/
def envNotConfigured : Env :=
  { envDefault with spotifyToken := fun _ => .error .NotFound }

/-- Classification of a token-lookup fault by the three music handlers:
`NotFound` degrades to the soft reply, any other storage fault propagates
as a hard `DBError` failure. -/
def tokenFaultOutcome (e : DBConnError) : Outcome String :=
  match e with
  | .NotFound => .ok "not configured for this channel"
  | .Other m => .err (.DBError (.Other m))

theorem stripAt_idem (s : String) : stripAt (stripAt s) = stripAt s := by
  unfold stripAt
  congr 1
  refine List.filter_eq_self.mpr ?_
  intro c hc
  exact (List.mem_filter.mp hc).2

theorem run_hitman_cons (env : Env) (ch n : String) (rest : List String) :
    run env "hitman" (n :: rest) ch = liftSome (hitman env ch (stripAt n)) := rfl

theorem run_bodyguard_cons (env : Env) (ch n : String) (rest : List String) :
    run env "bodyguard" (n :: rest) ch = liftSome (bodyguard env ch (stripAt n)) := rfl

theorem run_commercial_cons (env : Env) (ch s : String) (rest : List String) :
    run env "commercial" (s :: rest) ch =
      match parseU8 s with
      | some d => liftSome (run_ad env ch d)
      | none => (.panic "called Result::unwrap() on an Err value", []) := rfl

theorem run_emoteonly_cons (env : Env) (ch s : String) (rest : List String) :
    run env "emoteonly" (s :: rest) ch =
      match parseU64 s with
      | some d => (.ok none, emote_only ch d)
      | none => (.err (.ExecutionError "invalid duration"), []) := rfl

/-- C1: the spec requires missing-argument invocations of `commercial`,
`translate` and `emoteonly` to return `Failure(InvalidArguments, ...)`
and never crash; the code instead panics on `unwrap` of the missing first
argument in all three cases, before touching any port or the outbound
channel. This theorem evaluates the code at the failing inputs. -/
theorem run_missing_arg_panics (env : Env) (channel : String) :
    run env "commercial" [] channel =
      (.panic "called Option::unwrap() on a None value", []) ∧
    run env "translate" [] channel =
      (.panic "called Option::unwrap() on a None value", []) ∧
    run env "emoteonly" [] channel =
      (.panic "called Option::unwrap() on a None value", []) :=
  ⟨rfl, rfl, rfl⟩

/-- C2 counterexample: the duration argument `300` is not one of 60, 120
or 180, yet the invocation does not reply `Invalid ad duration`: it panics
on `parse::<u8>().unwrap()` because 300 overflows `u8`. -/
theorem run_commercial_overflow_panics :
    (run envDefault "commercial" ["300"] "c").1 ≠ .ok (some "Invalid ad duration") ∧
    (run envDefault "commercial" ["300"] "c").1 =
      .panic "called Result::unwrap() on an Err value" := by
  have k : (run envDefault "commercial" ["300"] "c").1 =
      .panic "called Result::unwrap() on an Err value" := rfl
  refine ⟨?_, k⟩
  rw [k]
  intro h
  exact Outcome.noConfusion h

/-- C2 (amended): for every `commercial` invocation whose duration
argument parses as a `u8` with value not in {60, 120, 180}, the ad-trigger
port is never called (the effect trace is empty) and the result is the
reply `Invalid ad duration`. -/
theorem run_commercial_invalid_duration (env : Env) (ch s : String) (rest : List String)
    (n : Nat) (hp : parseU8 s = some n) (hn : ¬(n = 60 ∨ n = 120 ∨ n = 180)) :
    run env "commercial" (s :: rest) ch = (.ok (some "Invalid ad duration"), []) := by
  rw [run_commercial_cons, hp]
  show liftSome (run_ad env ch n) = _
  unfold run_ad
  rw [if_neg hn]
  rfl

/-- C2 witness: duration `30` parses as a `u8`, is not in {60, 120, 180},
and yields the reply with an empty effect trace. -/
theorem run_commercial_invalid_duration_witness :
    parseU8 "30" = some 30 ∧ ¬((30 : Nat) = 60 ∨ (30 : Nat) = 120 ∨ (30 : Nat) = 180) ∧
    run envDefault "commercial" ["30"] "c" = (.ok (some "Invalid ad duration"), []) :=
  ⟨rfl, by decide,
   run_commercial_invalid_duration envDefault "c" "30" [] 30 rfl (by decide)⟩

/-- C3: a hitman invocation whose post-delay protection read returns
`false` enqueues exactly one `Raw` directive, the 600-second timeout of
the target, and replies that the target was timed out for 10 minutes. -/
theorem hitman_unprotected_times_out (env : Env) (ch u : String)
    (h1 : env.addHitman ch u = .ok ()) (h2 : env.hitmanProtected u ch = .ok false) :
    (hitman env ch u).1 = .ok (u ++ " timed out for 10 minutes!") ∧
    rawMsgs (hitman env ch u).2 = [.Raw ch ("/timeout " ++ u ++ " 600")] := by
  have key : hitman env ch u =
      (.ok (u ++ " timed out for 10 minutes!"),
       [.dbAddHitman ch u,
        .send (.Say ch ("Timing out " ++ u ++ " in 15 seconds...")),
        .sleep 15,
        .dbGetProtected u ch,
        .send (.Raw ch ("/timeout " ++ u ++ " 600"))]) := by
    unfold hitman
    rw [h1, h2]
    rfl
  exact ⟨by rw [key], by rw [key]; rfl⟩

/-- C3 witness: in the healthy environment, user `bob` is unprotected and
gets timed out. -/
theorem hitman_unprotected_times_out_witness :
    envDefault.addHitman "c" "bob" = .ok () ∧
    envDefault.hitmanProtected "bob" "c" = .ok false ∧
    ((hitman envDefault "c" "bob").1 = .ok ("bob" ++ " timed out for 10 minutes!") ∧
     rawMsgs (hitman envDefault "c" "bob").2 = [.Raw "c" ("/timeout " ++ "bob" ++ " 600")]) :=
  ⟨rfl, rfl, hitman_unprotected_times_out envDefault "c" "bob" rfl rfl⟩

/-- C4: a hitman invocation whose post-delay protection read returns
`true` writes `protected := false` for the pair, replies with the empty
string, and enqueues no `Raw` directive. -/
theorem hitman_protected_spares (env : Env) (ch u : String)
    (h1 : env.addHitman ch u = .ok ()) (h2 : env.hitmanProtected u ch = .ok true)
    (h3 : env.setHitmanProtection u ch false = .ok ()) :
    (hitman env ch u).1 = .ok "" ∧
    Effect.dbSetProtection u ch false ∈ (hitman env ch u).2 ∧
    rawMsgs (hitman env ch u).2 = [] := by
  have key : hitman env ch u =
      (.ok "",
       [.dbAddHitman ch u,
        .send (.Say ch ("Timing out " ++ u ++ " in 15 seconds...")),
        .sleep 15,
        .dbGetProtected u ch,
        .dbSetProtection u ch false]) := by
    unfold hitman
    rw [h1, h2, h3]
    rfl
  refine ⟨by rw [key], ?_, by rw [key]; rfl⟩
  rw [key]
  simp

/-- C4 witness: in the healthy environment, user `guarded` reads as
protected, is spared, and the protection flag is cleared. -/
theorem hitman_protected_spares_witness :
    envDefault.addHitman "c" "guarded" = .ok () ∧
    envDefault.hitmanProtected "guarded" "c" = .ok true ∧
    envDefault.setHitmanProtection "guarded" "c" false = .ok () ∧
    ((hitman envDefault "c" "guarded").1 = .ok "" ∧
     Effect.dbSetProtection "guarded" "c" false ∈ (hitman envDefault "c" "guarded").2 ∧
     rawMsgs (hitman envDefault "c" "guarded").2 = []) :=
  ⟨rfl, rfl, rfl, hitman_protected_spares envDefault "c" "guarded" rfl rfl rfl⟩

/-- C5: a hitman invocation whose initial record write fails returns the
storage fault as a hard `DBError` failure and sends nothing on the
outbound channel. -/
theorem hitman_persist_failure_sends_nothing (env : Env) (ch u : String)
    (e : DBConnError) (h : env.addHitman ch u = .error e) :
    (hitman env ch u).1 = .err (.DBError e) ∧
    sentMsgs (hitman env ch u).2 = [] := by
  have key : hitman env ch u = (.err (.DBError e), [.dbAddHitman ch u]) := by
    unfold hitman
    rw [h]
  exact ⟨by rw [key], by rw [key]; rfl⟩

/-- C5 witness: with the persistence port down, the hitman invocation
fails hard and sends nothing. -/
theorem hitman_persist_failure_sends_nothing_witness :
    envDbDown.addHitman "c" "bob" = .error (.Other "db down") ∧
    ((hitman envDbDown "c" "bob").1 = .err (.DBError (.Other "db down")) ∧
     sentMsgs (hitman envDbDown "c" "bob").2 = []) :=
  ⟨rfl, hitman_persist_failure_sends_nothing envDbDown "c" "bob" (.Other "db down") rfl⟩

/-- C6: every action name outside the fixed built-in table yields
`Failure(UnknownAction, name)` — modelled as `ExecutionError` with the
message `unknown action <name>` — with an empty effect trace, hence zero
outbound messages. -/
theorem run_unknown_action (env : Env) (action : String) (args : List String)
    (channel : String) (h : action ∉ knownActions) :
    run env action args channel =
      (.err (.ExecutionError ("unknown action " ++ action)), []) ∧
    sentMsgs (run env action args channel).2 = [] := by
  simp only [knownActions, List.mem_cons, List.not_mem_nil, or_false, not_or] at h
  obtain ⟨h1, h2, h3, h4, h5, h6, h7, h8, h9, h10, h11, h12⟩ := h
  have key : run env action args channel =
      (.err (.ExecutionError ("unknown action " ++ action)), []) := by
    unfold run
    rw [if_neg h1, if_neg h2, if_neg h3, if_neg h4, if_neg h5, if_neg h6,
      if_neg h7, if_neg h8, if_neg h9, if_neg h10, if_neg h11, if_neg h12]
  exact ⟨key, by rw [key]; rfl⟩

/-- C6 witness: the name `frobnicate` is not in the table and is rejected
with no outbound traffic. -/
theorem run_unknown_action_witness :
    "frobnicate" ∉ knownActions ∧
    (run envDefault "frobnicate" [] "c" =
       (.err (.ExecutionError ("unknown action " ++ "frobnicate")), []) ∧
     sentMsgs (run envDefault "frobnicate" [] "c").2 = []) :=
  ⟨by decide, run_unknown_action envDefault "frobnicate" [] "c" (by decide)⟩

/-- C7: for each of the three music handlers, a token-lookup fault is
classified the same way: `NotFound` becomes the soft reply `not configured
for this channel`, and any other storage fault propagates as a hard
`DBError` failure. -/
theorem music_actions_token_fault (env : Env) (ch : String) (e : DBConnError)
    (h : env.spotifyToken ch = .error e) :
    (get_spotify env ch).1 = tokenFaultOutcome e ∧
    (get_spotify_playlist env ch).1 = tokenFaultOutcome e ∧
    (get_spotify_last_song env ch).1 = tokenFaultOutcome e := by
  refine ⟨?_, ?_, ?_⟩
  · unfold get_spotify
    rw [h]
    cases e <;> rfl
  · unfold get_spotify_playlist
    rw [h]
    cases e <;> rfl
  · unfold get_spotify_last_song
    rw [h]
    cases e <;> rfl

/-- C7 witness: with no token record for the channel, all three music
handlers produce the soft `not configured` reply. -/
theorem music_actions_token_fault_witness :
    envNotConfigured.spotifyToken "c" = .error .NotFound ∧
    ((get_spotify envNotConfigured "c").1 = tokenFaultOutcome .NotFound ∧
     (get_spotify_playlist envNotConfigured "c").1 = tokenFaultOutcome .NotFound ∧
     (get_spotify_last_song envNotConfigured "c").1 = tokenFaultOutcome .NotFound) :=
  ⟨rfl, music_actions_token_fault envNotConfigured "c" .NotFound rfl⟩

/-- C8: an `emoteonly` invocation whose first argument is present but
does not parse as a `u64` fails with `ExecutionError` (the
`InvalidArguments` class) and has an empty effect trace, hence zero
outbound messages. -/
theorem run_emoteonly_unparsable (env : Env) (ch s : String) (rest : List String)
    (h : parseU64 s = none) :
    run env "emoteonly" (s :: rest) ch = (.err (.ExecutionError "invalid duration"), []) ∧
    sentMsgs (run env "emoteonly" (s :: rest) ch).2 = [] := by
  have key : run env "emoteonly" (s :: rest) ch =
      (.err (.ExecutionError "invalid duration"), []) := by
    rw [run_emoteonly_cons, h]
  exact ⟨key, by rw [key]; rfl⟩

/-- C8 witness: the argument `abc` does not parse as a `u64`. -/
theorem run_emoteonly_unparsable_witness :
    parseU64 "abc" = none ∧
    (run envDefault "emoteonly" ["abc"] "c" =
       (.err (.ExecutionError "invalid duration"), []) ∧
     sentMsgs (run envDefault "emoteonly" ["abc"] "c").2 = []) :=
  ⟨rfl, run_emoteonly_unparsable envDefault "c" "abc" [] rfl⟩

/-- C9: an `emoteonly` invocation with a parsable duration enqueues
exactly three outbound messages in order — the announcing `Say`, the
`Raw` enabling emote-only mode, and, after the caller-supplied sleep, the
`Raw` disabling it. -/
theorem run_emoteonly_window (env : Env) (ch s : String) (rest : List String)
    (d : Nat) (h : parseU64 s = some d) :
    run env "emoteonly" (s :: rest) ch =
      (.ok none,
       [.send (.Say ch ("Emote-only enabled for " ++ toString d ++ " seconds!")),
        .send (.Raw ch "/emoteonly"),
        .sleep d,
        .send (.Raw ch "/emoteonlyoff")]) ∧
    sentMsgs (run env "emoteonly" (s :: rest) ch).2 =
      [.Say ch ("Emote-only enabled for " ++ toString d ++ " seconds!"),
       .Raw ch "/emoteonly",
       .Raw ch "/emoteonlyoff"] := by
  have key : run env "emoteonly" (s :: rest) ch =
      (.ok none,
       [.send (.Say ch ("Emote-only enabled for " ++ toString d ++ " seconds!")),
        .send (.Raw ch "/emoteonly"),
        .sleep d,
        .send (.Raw ch "/emoteonlyoff")]) := by
    rw [run_emoteonly_cons, h]
    rfl
  exact ⟨key, by rw [key]; rfl⟩

/-- C9 witness: duration `5` parses and produces the three-message
window. -/
theorem run_emoteonly_window_witness :
    parseU64 "5" = some 5 ∧
    (run envDefault "emoteonly" ["5"] "c" =
       (.ok none,
        [.send (.Say "c" ("Emote-only enabled for " ++ toString 5 ++ " seconds!")),
         .send (.Raw "c" "/emoteonly"),
         .sleep 5,
         .send (.Raw "c" "/emoteonlyoff")]) ∧
     sentMsgs (run envDefault "emoteonly" ["5"] "c").2 =
       [.Say "c" ("Emote-only enabled for " ++ toString 5 ++ " seconds!"),
        .Raw "c" "/emoteonly",
        .Raw "c" "/emoteonlyoff"]) :=
  ⟨rfl, run_emoteonly_window envDefault "c" "5" [] 5 rfl⟩

/-- C10: for `hitman` and `bodyguard` the first argument is passed to the
handler with every `@` stripped, so invoking with `n` and with the
stripped form of `n` is indistinguishable (same record key, same messages,
same reply), and the name the handler uses contains no `@`. -/
theorem run_strips_at_from_target (env : Env) (ch n : String) (rest : List String) :
    run env "hitman" (n :: rest) ch = liftSome (hitman env ch (stripAt n)) ∧
    run env "bodyguard" (n :: rest) ch = liftSome (bodyguard env ch (stripAt n)) ∧
    run env "hitman" (n :: rest) ch = run env "hitman" (stripAt n :: rest) ch ∧
    run env "bodyguard" (n :: rest) ch = run env "bodyguard" (stripAt n :: rest) ch ∧
    '@' ∉ (stripAt n).data := by
  refine ⟨rfl, rfl, ?_, ?_, ?_⟩
  · rw [run_hitman_cons, run_hitman_cons, stripAt_idem]
  · rw [run_bodyguard_cons, run_bodyguard_cons, stripAt_idem]
  · simp [stripAt, List.mem_filter]

end Foobot
